import Mathlib

/-!
Shallow embedding of the RustyTwisty cube core (src/cube/cubie.rs,
src/cube/cube.rs, src/cube/macros.rs) and proofs about it.

Modelling conventions:
* `StaticVec<Face, N>` is modelled as `List Face`; `staticvec![x; n]` is
  `List.replicate n x`; `Vec::truncate(k)` is `List.take k`;
  `StaticVec::from(v)` for capacity `N` keeps at most `N` elements, hence
  `List.take N`.
* `Box<T>` is the identity: `new_boxed*` constructors return the same value
  as their unboxed counterparts.
* `vec[0]`, reached only under a guard that the vector is non-empty, is
  modelled by `List.headI` (equal to the first element on non-empty lists).
* A Rust `panic!` arm is modelled by returning `none` from an
  `Option`-valued function.
-/

namespace RustyTwisty

namespace cubie

/-- `Color` from src/cube/cubie.rs: the six sticker colors plus `Uninit`. -/
inductive Color
  | Blue
  | Green
  | Orange
  | Red
  | White
  | Yellow
  | Uninit
deriving DecidableEq, Repr, Fintype

/-- `Color::new()`. -/
def Color.new : Color := Color.Uninit

/-- `Color::opposite_color_from_color`. -/
def Color.opposite_color_from_color : Color → Color
  | Color.Blue => Color.Green
  | Color.Green => Color.Blue
  | Color.Orange => Color.Red
  | Color.Red => Color.Orange
  | Color.White => Color.Yellow
  | Color.Yellow => Color.White
  | Color.Uninit => Color.Uninit

/-- `Color::opposite_color` (method form, delegates to the static form). -/
def Color.opposite_color (c : Color) : Color :=
  Color.opposite_color_from_color c

/-- `Face` from src/cube/cubie.rs: a sticker wrapping one `Color`.
Rust `PartialEq` compares by color only; since `color` is the only field,
structural equality coincides with it. -/
structure Face where
  color : Color
deriving DecidableEq, Repr

/-- `Face::new()`. -/
def Face.new : Face := ⟨Color.new⟩

instance : Inhabited Face := ⟨Face.new⟩

/-- `Face::new_from_cubie_color`. -/
def Face.new_from_cubie_color (color : Color) : Face := ⟨color⟩

/-- `Center` from src/cube/cubie.rs: `faces : StaticVec<Face, 1>`. -/
structure Center where
  faces : List Face
deriving DecidableEq, Repr

/-- `Center::new()` (`BuildCubie` impl): one `Face::new()` sticker. -/
def Center.new : Center := ⟨List.replicate 1 Face.new⟩

/-- `Center::new_boxed()`: same construction, boxed. -/
def Center.new_boxed : Center := ⟨List.replicate 1 Face.new⟩

/-- `Center::new_from_vec`: empty input behaves as `new()`, otherwise
`v.truncate(1)` then `StaticVec::from` with capacity 1. -/
def Center.new_from_vec (vec : List Face) : Center :=
  if vec.length = 0 then Center.new
  else ⟨(vec.take 1).take 1⟩

/-- `Center::new_boxed_from_vec`: identical body, boxed. -/
def Center.new_boxed_from_vec (vec : List Face) : Center :=
  if vec.length = 0 then Center.new
  else ⟨(vec.take 1).take 1⟩

/-- `Corner` from src/cube/cubie.rs: `faces : StaticVec<Face, 3>`. -/
structure Corner where
  faces : List Face
deriving DecidableEq, Repr

/-- `Corner::new()`: three `Face::new()` stickers. -/
def Corner.new : Corner := ⟨List.replicate 3 Face.new⟩

/-- `Corner::new_boxed()`. -/
def Corner.new_boxed : Corner := ⟨List.replicate 3 Face.new⟩

/-- `Corner::new_from_vec`: empty input behaves as `new()`; length in
(0,3) replicates `vec[0]` three times; otherwise the source calls
`v.truncate(1)` (not 3) before `StaticVec::from` with capacity 3. -/
def Corner.new_from_vec (vec : List Face) : Corner :=
  if vec.length = 0 then Corner.new
  else if 0 < vec.length ∧ vec.length < 3 then ⟨List.replicate 3 vec.headI⟩
  else ⟨(vec.take 1).take 3⟩

/-- `Corner::new_boxed_from_vec`: as `new_from_vec` but the over-length
branch calls `v.truncate(3)`. -/
def Corner.new_boxed_from_vec (vec : List Face) : Corner :=
  if vec.length = 0 then Corner.new
  else if 0 < vec.length ∧ vec.length < 3 then ⟨List.replicate 3 vec.headI⟩
  else ⟨(vec.take 3).take 3⟩

/-- `Edge` from src/cube/cubie.rs: `faces : StaticVec<Face, 2>`. -/
structure Edge where
  faces : List Face
deriving DecidableEq, Repr

/-- `Edge::new()`: two `Face::new()` stickers. -/
def Edge.new : Edge := ⟨List.replicate 2 Face.new⟩

/-- `Edge::new_boxed()`. -/
def Edge.new_boxed : Edge := ⟨List.replicate 2 Face.new⟩

/-- `Edge::new_from_vec`: empty input behaves as `new()`; length in (0,2)
replicates `vec[0]` twice; otherwise the source calls `v.truncate(1)`
before `StaticVec::from` with capacity 2. -/
def Edge.new_from_vec (vec : List Face) : Edge :=
  if vec.length = 0 then Edge.new
  else if 0 < vec.length ∧ vec.length < 2 then ⟨List.replicate 2 vec.headI⟩
  else ⟨(vec.take 1).take 2⟩

/-- `Edge::new_boxed_from_vec`: identical reconciliation, including the
`v.truncate(1)` over-length branch. -/
def Edge.new_boxed_from_vec (vec : List Face) : Edge :=
  if vec.length = 0 then Edge.new
  else if 0 < vec.length ∧ vec.length < 2 then ⟨List.replicate 2 vec.headI⟩
  else ⟨(vec.take 1).take 2⟩

/-- `Box<dyn Cubie>`: a value of one of the three concrete cubie kinds. -/
inductive Cubie
  | centerC : Center → Cubie
  | edgeC : Edge → Cubie
  | cornerC : Corner → Cubie
deriving DecidableEq, Repr

instance : Inhabited Cubie := ⟨Cubie.centerC Center.new⟩

/-- The sticker sequence of a `dyn Cubie` value (each variant's `faces()`
accessor returns its `faces` field). -/
def Cubie.facesOf : Cubie → List Face
  | Cubie.centerC c => c.faces
  | Cubie.edgeC e => e.faces
  | Cubie.cornerC c => c.faces

/-- True exactly on `Center` values (the `as_any` downcast succeeding). -/
def Cubie.isCenter : Cubie → Bool
  | Cubie.centerC _ => true
  | _ => false

/-- True exactly on `Edge` values. -/
def Cubie.isEdge : Cubie → Bool
  | Cubie.edgeC _ => true
  | _ => false

/-- True exactly on `Corner` values. -/
def Cubie.isCorner : Cubie → Bool
  | Cubie.cornerC _ => true
  | _ => false

end cubie

/-- The `cubie!` construction tag from src/cube/macros.rs: known tags build
the boxed cubie of that kind, any other tag panics (`none`). -/
def cubieOfTag : String → Option cubie.Cubie
  | "center" => some (cubie.Cubie.centerC cubie.Center.new_boxed)
  | "corner" => some (cubie.Cubie.cornerC cubie.Corner.new_boxed)
  | "edge" => some (cubie.Cubie.edgeC cubie.Edge.new_boxed)
  | _ => none

namespace cube

/-- `Face` (the view) from src/cube/cube.rs: nine borrowed cubies. The
element type is a parameter because every accessor in the source only reads
`self.elements[i]` at fixed indices; instantiating `α` with `Fin 26` reads
off the storage slots themselves. -/
structure Face (α : Type) where
  elements : List α
deriving DecidableEq, Repr

/-- `Face::new_from_array`. -/
def Face.new_from_array {α : Type} (arr : List α) : Face α := ⟨arr⟩

/-- `FaceKind` from src/cube/cube.rs. -/
inductive FaceKind
  | Top
  | Left
  | Right
  | Front
  | Back
  | Bottom
deriving DecidableEq, Repr, Fintype

/-- `Row` from src/cube/cube.rs: the center slot is optional because the
middle row of the middle layer holds the turning mechanism. -/
structure Row (α : Type) where
  center : Option α
  left : α
  right : α
deriving DecidableEq, Repr

/-- `Row::new`. -/
def Row.new {α : Type} (left : α) (center : Option α) (right : α) : Row α :=
  ⟨center, left, right⟩

/-- `Row::has_center`. -/
def Row.has_center {α : Type} (r : Row α) : Bool := r.center.isSome

/-- `Column` from src/cube/cube.rs: the center slot is optional. -/
structure Column (α : Type) where
  center : Option α
  top : α
  bottom : α
deriving DecidableEq, Repr

/-- `Column::new`. -/
def Column.new {α : Type} (top : α) (center : Option α) (bottom : α) :
    Column α :=
  ⟨center, top, bottom⟩

/-- `CornerPosition` from src/cube/cube.rs. -/
inductive CornerPosition
  | TopBackLeft
  | TopBackRight
  | TopFrontLeft
  | TopFrontRight
  | BottomBackLeft
  | BottomBackRight
  | BottomFrontLeft
  | BottomFrontRight
deriving DecidableEq, Repr, Fintype

/-- `ColumnPosition` from src/cube/cube.rs. -/
inductive ColumnPosition
  | BackLeft
  | BackMiddle
  | BackRight
  | MiddleLeft
  | MiddleCenter
  | MiddleRight
  | FrontLeft
  | FrontMiddle
  | FrontRight
deriving DecidableEq, Repr, Fintype

/-- `RowPosition` from src/cube/cube.rs. -/
inductive RowPosition
  | TopBack
  | TopCenter
  | TopFront
  | MiddleBack
  | MiddleCenter
  | MiddleFront
  | BottomBack
  | BottomCenter
  | BottomFront
deriving DecidableEq, Repr, Fintype

/-- `Cube` from src/cube/cube.rs: `elements: [Box<dyn Cubie>; 26]`,
generalized over the element type (see `Face`). -/
structure Cube (α : Type) where
  elements : Fin 26 → α

/-- `Cube::new()`: the fixed 26-slot layout — top slice 0-8, middle slice
9-16 (no slot for the mechanical core), bottom slice 17-25. Each
`cubie!(tag)` call is expanded at its literal tag (`cubieOfTag` evaluates
to `some` of exactly these values). -/
def Cube.new : Cube cubie.Cubie :=
  ⟨fun i => match i.val with
    | 0 => cubie.Cubie.cornerC cubie.Corner.new_boxed
    | 1 => cubie.Cubie.edgeC cubie.Edge.new_boxed
    | 2 => cubie.Cubie.cornerC cubie.Corner.new_boxed
    | 3 => cubie.Cubie.edgeC cubie.Edge.new_boxed
    | 4 => cubie.Cubie.centerC cubie.Center.new_boxed
    | 5 => cubie.Cubie.edgeC cubie.Edge.new_boxed
    | 6 => cubie.Cubie.cornerC cubie.Corner.new_boxed
    | 7 => cubie.Cubie.edgeC cubie.Edge.new_boxed
    | 8 => cubie.Cubie.cornerC cubie.Corner.new_boxed
    | 9 => cubie.Cubie.edgeC cubie.Edge.new_boxed
    | 10 => cubie.Cubie.centerC cubie.Center.new_boxed
    | 11 => cubie.Cubie.edgeC cubie.Edge.new_boxed
    | 12 => cubie.Cubie.centerC cubie.Center.new_boxed
    | 13 => cubie.Cubie.centerC cubie.Center.new_boxed
    | 14 => cubie.Cubie.edgeC cubie.Edge.new_boxed
    | 15 => cubie.Cubie.centerC cubie.Center.new_boxed
    | 16 => cubie.Cubie.edgeC cubie.Edge.new_boxed
    | 17 => cubie.Cubie.cornerC cubie.Corner.new_boxed
    | 18 => cubie.Cubie.edgeC cubie.Edge.new_boxed
    | 19 => cubie.Cubie.cornerC cubie.Corner.new_boxed
    | 20 => cubie.Cubie.edgeC cubie.Edge.new_boxed
    | 21 => cubie.Cubie.cornerC cubie.Corner.new_boxed
    | 22 => cubie.Cubie.edgeC cubie.Edge.new_boxed
    | 23 => cubie.Cubie.cornerC cubie.Corner.new_boxed
    | 24 => cubie.Cubie.edgeC cubie.Edge.new_boxed
    | _ => cubie.Cubie.cornerC cubie.Corner.new_boxed⟩

/-- `Cube::corner_raw`: fixed corner-slot table; out-of-range `pos`
panics (`none`). -/
def Cube.corner_raw {α : Type} (c : Cube α) (pos : Nat) : Option α :=
  match pos with
  | 0 => some (c.elements 0)
  | 1 => some (c.elements 2)
  | 2 => some (c.elements 6)
  | 3 => some (c.elements 8)
  | 4 => some (c.elements 17)
  | 5 => some (c.elements 19)
  | 6 => some (c.elements 23)
  | 7 => some (c.elements 25)
  | _ => none

/-- `Cube::corner`: named lookup delegating to `corner_raw`. -/
def Cube.corner {α : Type} (c : Cube α) (pos : CornerPosition) : Option α :=
  match pos with
  | CornerPosition.TopBackLeft => c.corner_raw 0
  | CornerPosition.TopBackRight => c.corner_raw 1
  | CornerPosition.TopFrontLeft => c.corner_raw 2
  | CornerPosition.TopFrontRight => c.corner_raw 3
  | CornerPosition.BottomBackLeft => c.corner_raw 4
  | CornerPosition.BottomBackRight => c.corner_raw 5
  | CornerPosition.BottomFrontLeft => c.corner_raw 6
  | CornerPosition.BottomFrontRight => c.corner_raw 7

/-- `Cube::corners`: the eight corners through `corner_raw 0..7`. -/
def Cube.corners {α : Type} (c : Cube α) : List (Option α) :=
  [c.corner_raw 0, c.corner_raw 1, c.corner_raw 2, c.corner_raw 3,
   c.corner_raw 4, c.corner_raw 5, c.corner_raw 6, c.corner_raw 7]

/-- `Cube::row_raw`: fixed row table; row 4 (middle of the middle layer)
has no center; out-of-range `pos` panics (`none`). -/
def Cube.row_raw {α : Type} (c : Cube α) (pos : Nat) : Option (Row α) :=
  match pos with
  | 0 => some ⟨some (c.elements 1), c.elements 0, c.elements 2⟩
  | 1 => some ⟨some (c.elements 4), c.elements 3, c.elements 5⟩
  | 2 => some ⟨some (c.elements 7), c.elements 6, c.elements 8⟩
  | 3 => some ⟨some (c.elements 10), c.elements 9, c.elements 11⟩
  | 4 => some ⟨none, c.elements 12, c.elements 13⟩
  | 5 => some ⟨some (c.elements 15), c.elements 14, c.elements 16⟩
  | 6 => some ⟨some (c.elements 18), c.elements 17, c.elements 19⟩
  | 7 => some ⟨some (c.elements 21), c.elements 20, c.elements 22⟩
  | 8 => some ⟨some (c.elements 24), c.elements 23, c.elements 25⟩
  | _ => none

/-- `Cube::row`: named lookup delegating to `row_raw`. -/
def Cube.row {α : Type} (c : Cube α) (pos : RowPosition) : Option (Row α) :=
  match pos with
  | RowPosition.TopBack => c.row_raw 0
  | RowPosition.TopCenter => c.row_raw 1
  | RowPosition.TopFront => c.row_raw 2
  | RowPosition.MiddleBack => c.row_raw 3
  | RowPosition.MiddleCenter => c.row_raw 4
  | RowPosition.MiddleFront => c.row_raw 5
  | RowPosition.BottomBack => c.row_raw 6
  | RowPosition.BottomCenter => c.row_raw 7
  | RowPosition.BottomFront => c.row_raw 8

/-- `Cube::rows`: the nine rows through `row_raw 0..8`. -/
def Cube.rows {α : Type} (c : Cube α) : List (Option (Row α)) :=
  [c.row_raw 0, c.row_raw 1, c.row_raw 2, c.row_raw 3, c.row_raw 4,
   c.row_raw 5, c.row_raw 6, c.row_raw 7, c.row_raw 8]

/-- `Cube::column_raw`: fixed column table, transcribed verbatim from the
source (in particular columns 0-3 take bottoms 18,19,20,21 and column 4
takes bottom 21); out-of-range `pos` panics (`none`). -/
def Cube.column_raw {α : Type} (c : Cube α) (pos : Nat) : Option (Column α) :=
  match pos with
  | 0 => some ⟨some (c.elements 9), c.elements 0, c.elements 18⟩
  | 1 => some ⟨some (c.elements 10), c.elements 1, c.elements 19⟩
  | 2 => some ⟨some (c.elements 11), c.elements 2, c.elements 20⟩
  | 3 => some ⟨some (c.elements 12), c.elements 3, c.elements 21⟩
  | 4 => some ⟨none, c.elements 4, c.elements 21⟩
  | 5 => some ⟨some (c.elements 13), c.elements 5, c.elements 22⟩
  | 6 => some ⟨some (c.elements 14), c.elements 6, c.elements 23⟩
  | 7 => some ⟨some (c.elements 15), c.elements 7, c.elements 24⟩
  | 8 => some ⟨some (c.elements 16), c.elements 8, c.elements 25⟩
  | _ => none

/-- `Cube::column`: named lookup delegating to `column_raw`. -/
def Cube.column {α : Type} (c : Cube α) (pos : ColumnPosition) :
    Option (Column α) :=
  match pos with
  | ColumnPosition.BackLeft => c.column_raw 0
  | ColumnPosition.BackMiddle => c.column_raw 1
  | ColumnPosition.BackRight => c.column_raw 2
  | ColumnPosition.MiddleLeft => c.column_raw 3
  | ColumnPosition.MiddleCenter => c.column_raw 4
  | ColumnPosition.MiddleRight => c.column_raw 5
  | ColumnPosition.FrontLeft => c.column_raw 6
  | ColumnPosition.FrontMiddle => c.column_raw 7
  | ColumnPosition.FrontRight => c.column_raw 8

/-- `Cube::columns`: the nine columns through `column_raw 0..8`. -/
def Cube.columns {α : Type} (c : Cube α) : List (Option (Column α)) :=
  [c.column_raw 0, c.column_raw 1, c.column_raw 2, c.column_raw 3,
   c.column_raw 4, c.column_raw 5, c.column_raw 6, c.column_raw 7,
   c.column_raw 8]

/-- The `initialize_cube_face!` macro: builds a view `Face` from nine
storage indices. -/
def init_cube_face {α : Type} (o : Cube α) (x : Fin 9 → Fin 26) : Face α :=
  Face.new_from_array
    [o.elements (x 0), o.elements (x 1), o.elements (x 2),
     o.elements (x 3), o.elements (x 4), o.elements (x 5),
     o.elements (x 6), o.elements (x 7), o.elements (x 8)]

/-- `Cube::face`: the fixed per-face index tables from the source. -/
def Cube.face {α : Type} (c : Cube α) (s : FaceKind) : Face α :=
  match s with
  | FaceKind.Top => init_cube_face c ![0, 1, 2, 3, 4, 5, 6, 7, 8]
  | FaceKind.Left => init_cube_face c ![0, 3, 6, 9, 12, 14, 17, 20, 23]
  | FaceKind.Right => init_cube_face c ![2, 5, 8, 11, 13, 16, 19, 22, 25]
  | FaceKind.Front => init_cube_face c ![6, 7, 8, 14, 15, 16, 23, 24, 25]
  | FaceKind.Back => init_cube_face c ![0, 1, 2, 9, 10, 11, 17, 18, 19]
  | FaceKind.Bottom => init_cube_face c ![17, 18, 19, 20, 21, 22, 23, 24, 25]

end cube

/-- The cube whose element at each slot is the slot itself: evaluating any
accessor on it reads off the storage indices the accessor touches. -/
def idxCube : cube.Cube (Fin 26) := ⟨fun i => i⟩

/-- The (left, center, right) slot numbers of a row of `idxCube`. -/
def rowVals (r : cube.Row (Fin 26)) : Nat × Option Nat × Nat :=
  (r.left.val, Option.map Fin.val r.center, r.right.val)

/-- The (top, center, bottom) slot numbers of a column of `idxCube`. -/
def colVals (col : cube.Column (Fin 26)) : Nat × Option Nat × Nat :=
  (col.top.val, Option.map Fin.val col.center, col.bottom.val)

/-- The slot numbers occupied by a (possibly absent) row of `idxCube`, in
left, center, right order. -/
def optRowSlots (o : Option (cube.Row (Fin 26))) : List Nat :=
  match o with
  | none => []
  | some r => r.left.val :: ((Option.map Fin.val r.center).toList ++ [r.right.val])

end RustyTwisty

namespace RustyTwisty

/-- C4: `opposite_color_from_color` (and the method form `opposite_color`)
is total on the seven-value `Color` enumeration, maps Blue↔Green,
Orange↔Red, White↔Yellow and fixes Uninit, and is involutive. -/
theorem opposite_color_spec :
    cubie.Color.opposite_color_from_color cubie.Color.Blue = cubie.Color.Green
    ∧ cubie.Color.opposite_color_from_color cubie.Color.Green = cubie.Color.Blue
    ∧ cubie.Color.opposite_color_from_color cubie.Color.Orange = cubie.Color.Red
    ∧ cubie.Color.opposite_color_from_color cubie.Color.Red = cubie.Color.Orange
    ∧ cubie.Color.opposite_color_from_color cubie.Color.White = cubie.Color.Yellow
    ∧ cubie.Color.opposite_color_from_color cubie.Color.Yellow = cubie.Color.White
    ∧ cubie.Color.opposite_color_from_color cubie.Color.Uninit = cubie.Color.Uninit
    ∧ (∀ c : cubie.Color, c.opposite_color = cubie.Color.opposite_color_from_color c)
    ∧ (∀ c : cubie.Color, c.opposite_color.opposite_color = c) := by
  decide

/-- C3 (divergence): evaluating `Cube::new()` at every slot shows Corner
cubies at 0,2,6,8,17,19,21,23,25 — nine of them, with slot 21 (the middle
of the bottom layer, the bottom face's geometric center) a Corner instead
of a Center — and Center cubies only at 4,10,12,13,15, five of them, not
the six the claim requires; the `corners()` consequence still holds, since
`corner_raw` reads the eight geometric corner slots and never slot 21. -/
theorem cube_new_layout_eval :
    (∀ i : Fin 26,
      (cube.Cube.new.elements i).isCorner =
        decide (i.val ∈ [0, 2, 6, 8, 17, 19, 21, 23, 25])
      ∧ (cube.Cube.new.elements i).isCenter =
        decide (i.val ∈ [4, 10, 12, 13, 15])
      ∧ (cube.Cube.new.elements i).isEdge =
        decide (i.val ∈ [1, 3, 5, 7, 9, 11, 14, 16, 18, 20, 22, 24]))
    ∧ cube.Cube.new.corners.length = 8
    ∧ cube.Cube.new.corners =
      List.replicate 8 (some (cubie.Cubie.cornerC
        ⟨List.replicate 3 ⟨cubie.Color.Uninit⟩⟩)) := by
  decide

/-- C5: the nine rows of the cube, read on `idxCube` so that entries are
the storage slots themselves, follow the fixed layout table — row `p`
occupies slots (0,1,2), (3,4,5), (6,7,8), (9,10,11), (12,-,13),
(14,15,16), (17,18,19), (20,21,22), (23,24,25) — with the center present
for every row except raw row 4, the middle row of the middle layer; the
named accessor `row` and the aggregate `rows` agree with `row_raw`. -/
theorem row_table_spec :
    ((List.range 9).map fun p => Option.map rowVals (idxCube.row_raw p)) =
      [some (0, some 1, 2), some (3, some 4, 5), some (6, some 7, 8),
       some (9, some 10, 11), some (12, none, 13), some (14, some 15, 16),
       some (17, some 18, 19), some (20, some 21, 22), some (23, some 24, 25)]
    ∧ ([cube.RowPosition.TopBack, cube.RowPosition.TopCenter,
        cube.RowPosition.TopFront, cube.RowPosition.MiddleBack,
        cube.RowPosition.MiddleCenter, cube.RowPosition.MiddleFront,
        cube.RowPosition.BottomBack, cube.RowPosition.BottomCenter,
        cube.RowPosition.BottomFront].map fun pos => idxCube.row pos) =
      ((List.range 9).map fun p => idxCube.row_raw p)
    ∧ idxCube.rows = ((List.range 9).map fun p => idxCube.row_raw p) := by
  decide

/-- C2 (divergence): evaluating all nine columns on `idxCube` shows the
bottoms are slots 18,19,20,21,21,22,23,24,25 — columns 0-3 take bottom
slots one to the right of the layout table's 17+c, slot 17 appears in no
column, and slot 21 appears in both column 3 and column 4. -/
theorem column_table_eval :
    ((List.range 9).map fun p => Option.map colVals (idxCube.column_raw p)) =
      [some (0, some 9, 18), some (1, some 10, 19), some (2, some 11, 20),
       some (3, some 12, 21), some (4, none, 21), some (5, some 13, 22),
       some (6, some 14, 23), some (7, some 15, 24), some (8, some 16, 25)] := by
  decide

/-- C10: concatenating the slots of the nine rows (left, center, right,
in row order) yields exactly 0,…,25: every one of the 26 storage slots
appears in exactly one row, and none appears twice. -/
theorem rows_partition_storage :
    (idxCube.rows.map optRowSlots).flatten = List.range 26 := by
  decide

/-- C6: the six face tables, read on `idxCube`, are exactly the fixed
index tables of the source in raster order; on the fresh cube, the Top
face has nine elements and its first element equals storage element 0
(hence has the same sticker sequence). -/
theorem face_table_spec :
    (([cube.FaceKind.Top, cube.FaceKind.Left, cube.FaceKind.Right,
       cube.FaceKind.Front, cube.FaceKind.Back, cube.FaceKind.Bottom].map
        fun k => (idxCube.face k).elements.map Fin.val) =
      [[0, 1, 2, 3, 4, 5, 6, 7, 8],
       [0, 3, 6, 9, 12, 14, 17, 20, 23],
       [2, 5, 8, 11, 13, 16, 19, 22, 25],
       [6, 7, 8, 14, 15, 16, 23, 24, 25],
       [0, 1, 2, 9, 10, 11, 17, 18, 19],
       [17, 18, 19, 20, 21, 22, 23, 24, 25]])
    ∧ (cube.Cube.new.face cube.FaceKind.Top).elements.length = 9
    ∧ (cube.Cube.new.face cube.FaceKind.Top).elements.headI =
        cube.Cube.new.elements 0
    ∧ ((cube.Cube.new.face cube.FaceKind.Top).elements.headI).facesOf =
        (cube.Cube.new.elements 0).facesOf := by
  decide

/-- C8: each variant's `new()` yields arity-many Uninit stickers
(1 for Center, 2 for Edge, 3 for Corner), the flexible constructors on the
empty sequence coincide with `new()`, and boxed and unboxed forms agree. -/
theorem new_uninit_spec :
    cubie.Center.new.faces = List.replicate 1 ⟨cubie.Color.Uninit⟩
    ∧ cubie.Edge.new.faces = List.replicate 2 ⟨cubie.Color.Uninit⟩
    ∧ cubie.Corner.new.faces = List.replicate 3 ⟨cubie.Color.Uninit⟩
    ∧ cubie.Center.new_from_vec [] = cubie.Center.new
    ∧ cubie.Center.new_boxed_from_vec [] = cubie.Center.new_boxed
    ∧ cubie.Edge.new_from_vec [] = cubie.Edge.new
    ∧ cubie.Edge.new_boxed_from_vec [] = cubie.Edge.new_boxed
    ∧ cubie.Corner.new_from_vec [] = cubie.Corner.new
    ∧ cubie.Corner.new_boxed_from_vec [] = cubie.Corner.new_boxed
    ∧ cubie.Center.new_boxed = cubie.Center.new
    ∧ cubie.Edge.new_boxed = cubie.Edge.new
    ∧ cubie.Corner.new_boxed = cubie.Corner.new := by
  decide

/-- C1 (divergence): on over-length input the unboxed `Corner::new_from_vec`
and both `Edge` flexible constructors truncate to a single sticker, not to
the variant's arity; only `Corner::new_boxed_from_vec` truncates to the
first 3 as the claim states. -/
theorem truncation_eval :
    (cubie.Corner.new_from_vec
      [⟨cubie.Color.Blue⟩, ⟨cubie.Color.Green⟩, ⟨cubie.Color.Orange⟩,
       ⟨cubie.Color.Red⟩]).faces = [⟨cubie.Color.Blue⟩]
    ∧ (cubie.Edge.new_from_vec
        [⟨cubie.Color.Blue⟩, ⟨cubie.Color.Green⟩]).faces =
      [⟨cubie.Color.Blue⟩]
    ∧ (cubie.Edge.new_boxed_from_vec
        [⟨cubie.Color.Blue⟩, ⟨cubie.Color.Green⟩, ⟨cubie.Color.Orange⟩]).faces =
      [⟨cubie.Color.Blue⟩]
    ∧ (cubie.Corner.new_boxed_from_vec
        [⟨cubie.Color.Blue⟩, ⟨cubie.Color.Green⟩, ⟨cubie.Color.Orange⟩,
         ⟨cubie.Color.Red⟩]).faces =
      [⟨cubie.Color.Blue⟩, ⟨cubie.Color.Green⟩, ⟨cubie.Color.Orange⟩] := by
  decide

/-- C7: on input of length strictly between 0 and the arity, every
flexible constructor replicates the first input element across all arity
slots (for Center the range is empty, so that conjunct is vacuous). -/
theorem flexible_replication (v : List cubie.Face) (h : 1 ≤ v.length) :
    (v.length < 1 →
      (cubie.Center.new_from_vec v).faces = List.replicate 1 v.headI)
    ∧ (v.length < 2 →
      (cubie.Edge.new_from_vec v).faces = List.replicate 2 v.headI
      ∧ (cubie.Edge.new_boxed_from_vec v).faces = List.replicate 2 v.headI)
    ∧ (v.length < 3 →
      (cubie.Corner.new_from_vec v).faces = List.replicate 3 v.headI
      ∧ (cubie.Corner.new_boxed_from_vec v).faces = List.replicate 3 v.headI) := by
  refine ⟨fun h1 => absurd h (by omega), fun h2 => ?_, fun h3 => ?_⟩
  · constructor
    · rw [cubie.Edge.new_from_vec, if_neg (by omega), if_pos ⟨by omega, h2⟩]
    · rw [cubie.Edge.new_boxed_from_vec, if_neg (by omega), if_pos ⟨by omega, h2⟩]
  · constructor
    · rw [cubie.Corner.new_from_vec, if_neg (by omega), if_pos ⟨by omega, h3⟩]
    · rw [cubie.Corner.new_boxed_from_vec, if_neg (by omega), if_pos ⟨by omega, h3⟩]

/-- Witness for C7 at the concrete input `[Blue]`. -/
theorem flexible_replication_witness :
    (cubie.Edge.new_from_vec [⟨cubie.Color.Blue⟩]).faces =
      List.replicate 2 ⟨cubie.Color.Blue⟩
    ∧ (cubie.Corner.new_from_vec [⟨cubie.Color.Blue⟩]).faces =
      List.replicate 3 ⟨cubie.Color.Blue⟩ :=
  ⟨((flexible_replication [⟨cubie.Color.Blue⟩] (by decide)).2.1 (by decide)).1,
   ((flexible_replication [⟨cubie.Color.Blue⟩] (by decide)).2.2 (by decide)).1⟩

/-- C9: `corner_raw` succeeds exactly on 0..7 and fails fast (`none`,
modelling `panic!`) from 8 on; `row_raw` and `column_raw` succeed exactly
on 0..8; `cubieOfTag` succeeds exactly on the three known tags; and every
named-enumeration accessor (`corner`, `row`, `column`) always succeeds,
so none of them can reach a panic (`face` is total by construction). -/
theorem raw_accessors_fail_fast :
    (∀ p : Nat, (idxCube.corner_raw p).isSome = decide (p < 8))
    ∧ (∀ p : Nat, (idxCube.row_raw p).isSome = decide (p < 9))
    ∧ (∀ p : Nat, (idxCube.column_raw p).isSome = decide (p < 9))
    ∧ (∀ t : String,
        (cubieOfTag t).isSome =
          decide (t = "center" ∨ t = "corner" ∨ t = "edge"))
    ∧ (∀ pos : cube.CornerPosition, (idxCube.corner pos).isSome = true)
    ∧ (∀ pos : cube.RowPosition, (idxCube.row pos).isSome = true)
    ∧ (∀ pos : cube.ColumnPosition, (idxCube.column pos).isSome = true) := by
  refine ⟨?_, ?_, ?_, ?_, by decide, by decide, by decide⟩
  · intro p
    match p with
    | 0 | 1 | 2 | 3 | 4 | 5 | 6 | 7 => rfl
    | (n + 8) =>
      rw [decide_eq_false (by omega)]
      rfl
  · intro p
    match p with
    | 0 | 1 | 2 | 3 | 4 | 5 | 6 | 7 | 8 => rfl
    | (n + 9) =>
      rw [decide_eq_false (by omega)]
      rfl
  · intro p
    match p with
    | 0 | 1 | 2 | 3 | 4 | 5 | 6 | 7 | 8 => rfl
    | (n + 9) =>
      rw [decide_eq_false (by omega)]
      rfl
  · intro t
    unfold cubieOfTag
    split <;> simp_all

end RustyTwisty
